import Mathlib

/-!
Shallow embedding of the mDNS query client (`client.go`) and proofs of the
spec's claims about it.

Modelling conventions:
* Machine-level sockets are opaque tokens (`Nat`); a socket field that may be
  `nil` in Go is an `Option Nat`.
* The external DNS codec and the host networking stack are out of scope per
  the spec, so they enter the model as oracle functions carried in an
  environment (`Env`): the results of the two multicast bind attempts, the
  per-stack set-multicast-interface primitives, whether `Msg.Pack` fails for
  a given question, and the trace of events the correlation loop observes on
  the shared inbound channel (decoded messages interleaved with the firing
  of the timeout timer).
* Durations are nanosecond counts (`Nat`), matching Go's `time.Duration`.
* The caller's `Entries` channel is modelled by accumulating the sent
  records into a list (the sink), in send order.
-/

/-- A DNS resource record as the correlation loop inspects it: only
`Header().Name` and `Header().Rrtype` are consulted by `client.query`. -/
structure RR where
  Name : String
  Rrtype : Nat
deriving DecidableEq, Repr

/-- A decoded DNS message; only the answer section is consulted. -/
structure Msg where
  Answer : List RR
deriving DecidableEq, Repr

/-- `dns.TypeANY` from the external codec: the wildcard query type. -/
def TypeANY : Nat := 255

/-- `time.Second` in nanoseconds. -/
def timeSecond : Nat := 1000000000

/-- `QueryParam` from `client.go`: how a lookup is performed. `Interface` is
an opaque interface token (`nil` becomes `none`); `Entries` is an opaque
channel token (the actual sent records are tracked separately as a list). -/
structure QueryParam where
  Service : String
  Domain : String
  Timeout : Nat
  Interface : Option Nat
  QueryType : Nat
  Entries : Nat
deriving DecidableEq, Repr

/-- The `client` struct: up to two live multicast UDP sockets. The `closed`
flag and channel only matter to the receiver goroutines, which are abstracted
by the event trace, so they are not carried here. -/
structure client where
  ipv4List : Option Nat
  ipv6List : Option Nat
deriving DecidableEq, Repr

/-- `newClient` from `client.go`: each bind is attempted independently (the
attempts' results are the two `Option` arguments); the constructor fails with
the literal error of line 115 iff both attempts failed, and otherwise keeps
whatever sockets were obtained. -/
def newClient (bind4 bind6 : Option Nat) : Except String client :=
  if bind4.isNone && bind6.isNone then
    .error "Failed to bind to any udp port!"
  else
    .ok { ipv4List := bind4, ipv6List := bind6 }

/-- `true` iff `newClient` returns an error for these bind results. -/
def newClientFails (bind4 bind6 : Option Nat) : Bool :=
  match newClient bind4 bind6 with
  | .error _ => true
  | .ok _ => false

/-- `client.setInterface` from `client.go`: wraps `c.ipv4List` in a packet
conn and invokes the IPv4 set-multicast-interface primitive, returning its
error if it fails; otherwise does the same on `c.ipv6List` with the IPv6
primitive. The primitives are external (host networking stack), so they are
oracle arguments; note the code passes the socket field unconditionally,
whether or not it is `nil`. -/
def setInterface (prim4 prim6 : Option Nat → Nat → Option String)
    (iface : Nat) (c : client) : Option String :=
  match prim4 c.ipv4List iface with
  | some err => some err
  | none => prim6 c.ipv6List iface

/-- Modelled from the spec: `trimDot` is called by `client.query` (line 163)
but is defined in a repository file that is not part of the given source;
per the spec, "trailing dots in caller-supplied service/domain are normalized
away before concatenation". -/
def trimDot (s : String) : String :=
  ⟨(s.data.reverse.dropWhile (fun c => c = '.')).reverse⟩

/-- `strings.Replace(s, " ", "\x7bspace\x7d", -1)` specialised to the
single-character pattern of line 164: every space becomes a backslash
followed by a space. -/
def replaceSpaceChars : List Char → List Char
  | [] => []
  | c :: rest =>
    if c = ' ' then '\\' :: ' ' :: replaceSpaceChars rest
    else c :: replaceSpaceChars rest

/-- String form of `replaceSpaceChars`. -/
def escapeSpaces (s : String) : String := ⟨replaceSpaceChars s.data⟩

/-- The `serviceAddr` built at the top of `client.query` (lines 163-164):
`fmt.Sprintf` of the trimmed parts with separating and trailing dots,
then the space escaping. -/
def questionName (service domain : String) : String :=
  escapeSpaces (trimDot service ++ "." ++ trimDot domain ++ ".")

/-- One event the correlation loop's `select` can observe: a decoded message
arriving on `msgCh`, or the `time.After` timer firing. -/
inductive Event where
  | msg (m : Msg)
  | timeout
deriving DecidableEq, Repr

/-- Whether an event is the timeout firing. -/
def Event.isTimeout : Event → Bool
  | .timeout => true
  | .msg _ => false

/-- The filter of line 184: forward an answer iff its name equals the
constructed question name and the query type is `TypeANY` or equals the
answer's type. -/
def matchesQuestion (serviceAddr : String) (queryType : Nat) (answer : RR) : Bool :=
  answer.Name == serviceAddr && (queryType == TypeANY || answer.Rrtype == queryType)

/-- State of the correlation loop after consuming a finite event trace:
either still running (would block for the next channel event) with the
records sent so far, or returned, with the sent records and the error value
of the `return` statement executed. -/
inductive LoopResult where
  | running (sink : List RR)
  | returned (sink : List RR) (err : Option String)
deriving DecidableEq, Repr

/-- Whether the loop has returned. -/
def LoopResult.isReturned : LoopResult → Bool
  | .returned _ _ => true
  | .running _ => false

/-- The error value returned by the loop (`none` while still running). -/
def LoopResult.errOf : LoopResult → Option String
  | .returned _ e => e
  | .running _ => none

/-- The records sent to the sink so far. -/
def LoopResult.sinkOf : LoopResult → List RR
  | .returned s _ => s
  | .running s => s

/-- The `for`/`select` loop of `client.query` (lines 179-191), run over a
finite trace of channel events: a message appends its matching answers to the
sink (line 183-187); the timeout executes `return nil` (line 189). -/
def queryLoop (serviceAddr : String) (queryType : Nat) (sink : List RR) :
    List Event → LoopResult
  | [] => .running sink
  | .msg resp :: rest =>
    queryLoop serviceAddr queryType
      (sink ++ resp.Answer.filter (matchesQuestion serviceAddr queryType)) rest
  | .timeout :: _ => .returned sink none

/-- `client.query` (lines 161-193): builds the question name, sends the
question (`sendQuery` fails exactly when `Msg.Pack` fails, an external-codec
outcome given by the `packFails` oracle; in that case the code executes
`return nil` at line 175, so the error value is `none`), then runs the
correlation loop over the event trace. Result: `(some e, sink)` when the call
returned with error value `e`, `(none, sink)` when the loop is still blocked
after the trace. -/
def clientQuery (packFails : String → Nat → Bool) (trace : List Event)
    (params : QueryParam) : Option (Option String) × List RR :=
  let serviceAddr := questionName params.Service params.Domain
  if packFails serviceAddr params.QueryType then
    (some none, [])
  else
    match queryLoop serviceAddr params.QueryType [] trace with
    | .running sink => (none, sink)
    | .returned sink err => (some err, sink)

/-- The external environment one `Query` call runs against. -/
structure Env where
  bind4 : Option Nat
  bind6 : Option Nat
  prim4 : Option Nat → Nat → Option String
  prim6 : Option Nat → Nat → Option String
  packFails : String → Nat → Bool
  trace : List Event

/-- Observable outcome of one `Query` call: `retVal = some e` means the call
returned with error value `e` (`e = none` is Go's `nil`); `retVal = none`
means the call is still blocked in the loop after the trace. `finalParams`
is the caller's `QueryParam` struct after the call, since `Query` mutates it
through the pointer. -/
structure Outcome where
  retVal : Option (Option String)
  sink : List RR
  finalParams : QueryParam
deriving DecidableEq, Repr

/-- `Query` (lines 56-81): create the client (propagating its error); if an
interface was supplied, apply `setInterface` (propagating its error); apply
the defaults of lines 71-77 to the caller's struct; run `client.query`. -/
def Query (env : Env) (params : QueryParam) : Outcome :=
  match newClient env.bind4 env.bind6 with
  | .error e => { retVal := some (some e), sink := [], finalParams := params }
  | .ok c =>
    let ifaceErr : Option String :=
      match params.Interface with
      | some iface => setInterface env.prim4 env.prim6 iface c
      | none => none
    match ifaceErr with
    | some e => { retVal := some (some e), sink := [], finalParams := params }
    | none =>
      let params' : QueryParam :=
        { params with
          Domain := if params.Domain = "" then "local" else params.Domain,
          Timeout := if params.Timeout = 0 then timeSecond else params.Timeout }
      let r := clientQuery env.packFails env.trace params'
      { retVal := r.1, sink := r.2, finalParams := params' }

/-- `ServiceEntry` from `client.go`. `Addr` is an opaque IP token
(`nil` becomes `none`). -/
structure ServiceEntry where
  Name : String
  Addr : Option Nat
  Port : Nat
  Info : String
  hasTXT : Bool
  sent : Bool
deriving DecidableEq, Repr

/-- `ServiceEntry.complete`: all the info we need is present. -/
def ServiceEntry.complete (s : ServiceEntry) : Bool :=
  s.Addr.isSome && s.Port != 0 && s.hasTXT

/-- The zero-value-except-name entry allocated by `ensureName` (line 239). -/
def newEntry (name : String) : ServiceEntry :=
  { Name := name, Addr := none, Port := 0, Info := "", hasTXT := false, sent := false }

/-- The `inprogress` registry with Go's pointer semantics made explicit:
entry objects live in a heap addressed by allocation index, and the
`map[string]*ServiceEntry` maps names to heap indices. An insert shadows any
earlier binding of the same name, as a Go map assignment overwrites. -/
structure Registry where
  heap : List ServiceEntry
  map : List (String × Nat)
deriving DecidableEq, Repr

/-- Go map lookup: the most recent binding of a name wins. -/
def lookupPtr : List (String × Nat) → String → Option Nat
  | [], _ => none
  | (k, p) :: rest, name => if k = name then some p else lookupPtr rest name

/-- `ensureName` (lines 235-244): return the existing entry's pointer, or
allocate a fresh entry, bind the name to it, and return it. -/
def ensureName (inprogress : Registry) (name : String) : Nat × Registry :=
  match lookupPtr inprogress.map name with
  | some p => (p, inprogress)
  | none =>
    let p := inprogress.heap.length
    (p, { heap := inprogress.heap ++ [newEntry name],
          map := (name, p) :: inprogress.map })

/-- `alias` (lines 247-250), named `aliasEntry` because `alias` is reserved
in Lean: look up or create `src`, then bind `dst` to the same entry object. -/
def aliasEntry (inprogress : Registry) (src dst : String) : Registry :=
  let r := ensureName inprogress src
  { heap := r.2.heap, map := (dst, r.1) :: r.2.map }

/-- Dereference an entry pointer. -/
def deref (r : Registry) (p : Nat) : Option ServiceEntry :=
  r.heap.get? p

/-- Mutate the entry object behind a pointer in place, as Go code holding a
`*ServiceEntry` does. -/
def mutateAt (r : Registry) (p : Nat) (f : ServiceEntry → ServiceEntry) : Registry :=
  match r.heap.get? p with
  | some e => { r with heap := r.heap.set p (f e) }
  | none => r

/-! ## Helper lemmas -/

/-- The Boolean filter of line 184, read as a proposition. -/
theorem matchesQuestion_eq_true_iff (serviceAddr : String) (queryType : Nat) (a : RR) :
    matchesQuestion serviceAddr queryType a = true
      ↔ (a.Name = serviceAddr ∧ (queryType = TypeANY ∨ a.Rrtype = queryType)) := by
  simp [matchesQuestion]

/-- Consuming messages then a timeout: the loop returns `nil` with the sink
extended by exactly the matching answers, in observation order. -/
theorem queryLoop_consume (serviceAddr : String) (queryType : Nat) (sink : List RR)
    (msgs : List Msg) (rest : List Event) :
    queryLoop serviceAddr queryType sink (msgs.map Event.msg ++ Event.timeout :: rest)
      = .returned
          (sink ++ ((msgs.map Msg.Answer).flatten).filter
            (matchesQuestion serviceAddr queryType))
          none := by
  induction msgs generalizing sink with
  | nil => simp [queryLoop]
  | cons m ms ih => simp [queryLoop, ih, List.filter_append]

/-- The loop has returned iff the consumed trace contains a timeout, and the
only error value it can ever return is `nil`. -/
theorem queryLoop_state (serviceAddr : String) (queryType : Nat)
    (sink : List RR) (trace : List Event) :
    (queryLoop serviceAddr queryType sink trace).isReturned = trace.any Event.isTimeout
    ∧ (queryLoop serviceAddr queryType sink trace).errOf = none := by
  induction trace generalizing sink with
  | nil => simp [queryLoop, LoopResult.isReturned, LoopResult.errOf]
  | cons e rest ih =>
    cases e with
    | msg m => simpa [queryLoop, Event.isTimeout] using ih _
    | timeout => simp [queryLoop, Event.isTimeout, LoopResult.isReturned, LoopResult.errOf]

/-- `client.query` can only ever return Go's `nil` as its error value (or
still be blocked in the loop). -/
theorem clientQuery_retVal (packFails : String → Nat → Bool) (trace : List Event)
    (params : QueryParam) :
    (clientQuery packFails trace params).1 = some none
    ∨ (clientQuery packFails trace params).1 = none := by
  unfold clientQuery
  by_cases hp : packFails (questionName params.Service params.Domain) params.QueryType
  · simp [hp]
  · have h := queryLoop_state (questionName params.Service params.Domain)
      params.QueryType [] trace
    cases hq : queryLoop (questionName params.Service params.Domain)
        params.QueryType [] trace with
    | running s => simp [hp, hq]
    | returned s e =>
      rw [hq] at h
      simp [LoopResult.errOf] at h
      simp [hp, hq, h]

/-- Counting through a filter: occurrences survive exactly when the element
passes the predicate. -/
theorem count_filter_ite (l : List RR) (p : RR → Bool) (a : RR) :
    (l.filter p).count a = if p a then l.count a else 0 := by
  by_cases h : p a
  · simp [h, List.count_filter]
  · simp only [h, if_false]
    simp [List.count_eq_zero, List.mem_filter]
    intro hm
    simp [h]

/-! ## The claims -/

/-- A query whose question fails to encode: setup succeeds, the external
codec's `Pack` fails (as it does for this service name, whose single label
exceeds 63 bytes), and the timer eventually fires. -/
def envC1 : Env :=
  { bind4 := some 0, bind6 := some 0,
    prim4 := fun _ _ => none, prim6 := fun _ _ => none,
    packFails := fun _ _ => true, trace := [Event.timeout] }

/-- Parameters whose service is one 70-byte label, so that the packed
question is rejected by the codec (labels are capped at 63 bytes). -/
def paramsC1 : QueryParam :=
  { Service := "aaaaaaaaaaaaaaaaaaaaaaaaaaaaaaaaaaaaaaaaaaaaaaaaaaaaaaaaaaaaaaaaaaaaaa",
    Domain := "local", Timeout := timeSecond, Interface := none,
    QueryType := TypeANY, Entries := 0 }

/-- C1: when the DNS question fails to encode (`Pack` errors inside
`sendQuery`), `client.query` does return synchronously, before the
correlation loop runs, and nothing is sent to the sink — but line 175 is the
literal `return nil`, so the returned error value is `none` (Go's `nil`),
not the error the claim and the spec's failure-surface contract require. -/
theorem query_packFailure_returnsNilNotError :
    Query envC1 paramsC1
      = { retVal := some none, sink := [], finalParams := paramsC1 } := by
  rfl

/-- C3: once the question has been sent successfully (`packFails` answers
`false`), the call returns exactly when the trace contains a timeout event —
no message arrival can end the loop earlier — and the value it returns on
that timeout is Go's `nil`, so an empty result is a non-error outcome; the
second conjunct states the no-error fact for the raw loop at any state. -/
theorem clientQuery_returnsOnlyOnTimeout_noError (params : QueryParam)
    (trace : List Event) (serviceAddr : String) (queryType : Nat) (sink : List RR) :
    (clientQuery (fun _ _ => false) trace params).1
        = (if trace.any Event.isTimeout then some none else none)
    ∧ (queryLoop serviceAddr queryType sink trace).errOf = none := by
  refine ⟨?_, (queryLoop_state serviceAddr queryType sink trace).2⟩
  have hred : clientQuery (fun _ _ => false) trace params
      = (match queryLoop (questionName params.Service params.Domain)
            params.QueryType [] trace with
         | .running s => (none, s)
         | .returned s err => (some err, s)) := rfl
  rw [hred]
  have h1 := (queryLoop_state (questionName params.Service params.Domain)
    params.QueryType [] trace).1
  have h2 := (queryLoop_state (questionName params.Service params.Domain)
    params.QueryType [] trace).2
  cases hq : queryLoop (questionName params.Service params.Domain)
      params.QueryType [] trace with
  | running s =>
    rw [hq] at h1
    have hf : trace.any Event.isTimeout = false := by
      simpa [LoopResult.isReturned] using h1.symm
    simp [hf]
  | returned s e =>
    rw [hq] at h1 h2
    have ht : trace.any Event.isTimeout = true := by
      simpa [LoopResult.isReturned] using h1.symm
    have he : e = none := by simpa [LoopResult.errOf] using h2
    simp [ht, he]

/-- C4: the two bindings are attempted independently and `newClient` fails
iff both attempts failed; with exactly one surviving socket the client is
created holding only that socket; and when both fail, `Query` returns the
"no transport" error with nothing ever sent to the sink. -/
theorem newClient_bindPolicy :
    (∀ bind4 bind6 : Option Nat,
        newClientFails bind4 bind6 = (bind4.isNone && bind6.isNone))
    ∧ (∀ s : Nat, newClient (some s) none
        = .ok { ipv4List := some s, ipv6List := none })
    ∧ (∀ s : Nat, newClient none (some s)
        = .ok { ipv4List := none, ipv6List := some s })
    ∧ (∀ (prim4 prim6 : Option Nat → Nat → Option String)
        (packFails : String → Nat → Bool) (trace : List Event) (params : QueryParam),
        Query { bind4 := none, bind6 := none, prim4 := prim4, prim6 := prim6,
                packFails := packFails, trace := trace } params
          = { retVal := some (some "Failed to bind to any udp port!"), sink := [],
              finalParams := params }) := by
  refine ⟨?_, fun s => rfl, fun s => rfl, fun _ _ _ _ _ => rfl⟩
  intro bind4 bind6
  cases bind4 <;> cases bind6 <;> rfl

/-- An IPv4-stack primitive that rejects the operation when handed the
missing (`nil`) socket — as the real host stack does — and accepts it on any
live socket. -/
def prim4Nil : Option Nat → Nat → Option String :=
  fun sock _ => if sock.isNone then some "EINVAL" else none

/-- An IPv6-stack primitive that accepts the interface on every call. -/
def prim6Ok : Option Nat → Nat → Option String := fun _ _ => none

/-- C5 counterexample: a degraded client whose only live socket is IPv6; the
live stack's primitive accepts the interface, yet `setInterface` returns an
error — because the code also invokes the IPv4 primitive, handing it the
missing socket (there is no liveness check, unlike `Close`, `sendQuery` and
`recv`). So the call can fail without any live stack rejecting the
interface, refuting the claimed "if and only if". -/
theorem setInterface_degradedError_withoutLiveRejection :
    ({ ipv4List := none, ipv6List := some 0 } : client).ipv4List = none
    ∧ prim6Ok (some 0) 5 = none
    ∧ setInterface prim4Nil prim6Ok 5 { ipv4List := none, ipv6List := some 0 }
        = some "EINVAL" :=
  ⟨rfl, rfl, rfl⟩

/-- C5 (amended): `setInterface` invokes the underlying primitive on both
stacks unconditionally, passing the possibly-missing socket; it returns an
error iff either invocation fails, the IPv4 one taking precedence — so in
degraded mode the outcome also depends on the primitive's behavior on the
missing socket, not only on live-stack rejections. -/
theorem setInterface_error_iff_eitherInvocationErrors
    (prim4 prim6 : Option Nat → Nat → Option String) (iface : Nat) (c : client) :
    (setInterface prim4 prim6 iface c).isSome
        = ((prim4 c.ipv4List iface).isSome || (prim6 c.ipv6List iface).isSome)
    ∧ setInterface prim4 prim6 iface c
        = (prim4 c.ipv4List iface).or (prim6 c.ipv6List iface) := by
  cases h : prim4 c.ipv4List iface <;> simp [setInterface, h, Option.or]

/-- C2: over any run that consumes some messages and then the timeout, an
answer record reaches the sink iff its name is exactly the constructed
question name and the query type is the wildcard or equals the record's
type; and each qualifying occurrence is forwarded exactly once per
observation — the sink's multiplicity of a matching record equals its
multiplicity among the observed answers, with no deduplication. -/
theorem clientQuery_forwardsMatches (params : QueryParam) (msgs : List Msg)
    (rest : List Event) :
    ∃ sink : List RR,
      clientQuery (fun _ _ => false) (msgs.map Event.msg ++ Event.timeout :: rest) params
        = (some none, sink)
      ∧ (∀ a : RR, a ∈ sink ↔
          (a ∈ (msgs.map Msg.Answer).flatten
            ∧ a.Name = questionName params.Service params.Domain
            ∧ (params.QueryType = TypeANY ∨ a.Rrtype = params.QueryType)))
      ∧ (∀ a : RR,
          sink.count a
            = if matchesQuestion (questionName params.Service params.Domain)
                  params.QueryType a
              then ((msgs.map Msg.Answer).flatten).count a
              else 0) := by
  refine ⟨((msgs.map Msg.Answer).flatten).filter
      (matchesQuestion (questionName params.Service params.Domain) params.QueryType),
    ?_, ?_, ?_⟩
  · have hred : clientQuery (fun _ _ => false)
        (msgs.map Event.msg ++ Event.timeout :: rest) params
        = (match queryLoop (questionName params.Service params.Domain)
              params.QueryType [] (msgs.map Event.msg ++ Event.timeout :: rest) with
           | .running s => (none, s)
           | .returned s err => (some err, s)) := rfl
    rw [hred, queryLoop_consume]
    simp
  · intro a
    simp [List.mem_filter, matchesQuestion_eq_true_iff, and_assoc]
    aesop
  · intro a
    exact count_filter_ite _ _ a

/-- Escaping is character-local: each space becomes backslash-space and every
other character is kept. -/
theorem replaceSpaceChars_eq_flatMap (l : List Char) :
    replaceSpaceChars l
      = l.flatMap (fun c => if c = ' ' then ['\\', ' '] else [c]) := by
  induction l with
  | nil => rfl
  | cons c rest ih =>
    by_cases h : c = ' ' <;> simp [replaceSpaceChars, h, ih]

/-- A trailing dot is removed by the trimming step. -/
theorem trimDot_append_dot (s : String) : trimDot (s ++ ".") = trimDot s := by
  unfold trimDot
  rw [String.data_append]
  have : (("." : String)).data = ['.'] := rfl
  rw [this, List.reverse_append]
  simp [List.dropWhile]

/-- C6: the outbound question name is the service with its trailing dots
trimmed, a dot, the domain with its trailing dots trimmed, and a final dot,
with every space in the result escaped as backslash-space; in particular a
caller-supplied trailing dot on either part changes nothing, so no double
dots arise from them. -/
theorem questionName_spec (service domain : String) :
    questionName service domain
        = escapeSpaces (trimDot service ++ "." ++ trimDot domain ++ ".")
    ∧ questionName (service ++ ".") domain = questionName service domain
    ∧ questionName service (domain ++ ".") = questionName service domain
    ∧ (questionName service domain).data
        = (trimDot service ++ "." ++ trimDot domain ++ ".").data.flatMap
            (fun c => if c = ' ' then ['\\', ' '] else [c]) := by
  refine ⟨rfl, ?_, ?_, ?_⟩
  · unfold questionName
    rw [trimDot_append_dot]
  · unfold questionName
    rw [trimDot_append_dot]
  · unfold questionName escapeSpaces
    exact replaceSpaceChars_eq_flatMap _

/-- A name just looked-up-or-created is bound in the resulting registry, to
the returned pointer. -/
theorem lookupPtr_ensureName_self (reg : Registry) (name : String) :
    lookupPtr (ensureName reg name).2.map name = some (ensureName reg name).1 := by
  unfold ensureName
  cases h : lookupPtr reg.map name with
  | some p => simp [h]
  | none => simp [h, lookupPtr]

/-- Updating the entry object behind a pointer is seen by any dereference of
the same pointer. -/
theorem deref_mutateAt_self (r : Registry) (p : Nat) (f : ServiceEntry → ServiceEntry) :
    deref (mutateAt r p f) p = (deref r p).map f := by
  unfold deref mutateAt
  cases h : r.heap.get? p with
  | none =>
    simp [h]
    exact List.get?_eq_none.mp h
  | some e =>
    have hp : p < r.heap.length := (List.get?_eq_some.mp h).1
    simp [h, List.get?_eq_getElem?, List.getElem?_set_eq_of_lt _ hp]

/-- C7: after `alias(inprogress, A, B)`, looking up or creating `B` returns
the very entry pointer that looking up or creating `A` returns (and neither
lookup changes the registry, since both names are bound); hence a mutation
performed through `A`'s entry object is visible through a subsequent
lookup-or-create on `B`. The registry `reg` is arbitrary, so this holds
whether `A`'s entry existed before the alias call or is created by it. -/
theorem alias_sharedEntry (reg : Registry) (A B : String)
    (f : ServiceEntry → ServiceEntry) :
    ((ensureName (aliasEntry reg A B) B).1 = (ensureName (aliasEntry reg A B) A).1)
    ∧ (ensureName (aliasEntry reg A B) B).2 = aliasEntry reg A B
    ∧ (ensureName (aliasEntry reg A B) A).2 = aliasEntry reg A B
    ∧ deref (mutateAt (aliasEntry reg A B) (ensureName (aliasEntry reg A B) A).1 f)
          (ensureName (aliasEntry reg A B) B).1
        = (deref (aliasEntry reg A B) ((ensureName (aliasEntry reg A B) A).1)).map f := by
  have hBlook : lookupPtr (aliasEntry reg A B).map B = some (ensureName reg A).1 := by
    simp [aliasEntry, lookupPtr]
  have hAlook : lookupPtr (aliasEntry reg A B).map A = some (ensureName reg A).1 := by
    by_cases hAB : B = A
    · subst hAB
      simp [aliasEntry, lookupPtr]
    · simp only [aliasEntry, lookupPtr, if_neg hAB]
      exact lookupPtr_ensureName_self reg A
  have hB : ensureName (aliasEntry reg A B) B = ((ensureName reg A).1, aliasEntry reg A B) := by
    unfold ensureName
    rw [hBlook]
    rfl
  have hA : ensureName (aliasEntry reg A B) A = ((ensureName reg A).1, aliasEntry reg A B) := by
    unfold ensureName
    rw [hAlook]
    rfl
  refine ⟨by rw [hA, hB], by rw [hB], by rw [hA], ?_⟩
  rw [hA, hB]
  exact deref_mutateAt_self _ _ f

/-- C10: `alias(inprogress, src, dst)` rebinds `dst` unconditionally to the
entry pointer that `src` resolves to (discarding whatever binding `dst` had
before), binds `src` itself to that same pointer (creating its entry if
needed), and leaves the binding of every other name unchanged. -/
theorem alias_rebindsDst_frame (reg : Registry) (src dst : String) :
    lookupPtr (aliasEntry reg src dst).map dst = some (ensureName reg src).1
    ∧ lookupPtr (aliasEntry reg src dst).map src = some (ensureName reg src).1
    ∧ ∀ k, k ≠ src → k ≠ dst →
        lookupPtr (aliasEntry reg src dst).map k = lookupPtr reg.map k := by
  refine ⟨by simp [aliasEntry, lookupPtr], ?_, ?_⟩
  · by_cases hsd : dst = src
    · subst hsd
      simp [aliasEntry, lookupPtr]
    · simp only [aliasEntry, lookupPtr, if_neg hsd]
      exact lookupPtr_ensureName_self reg src
  · intro k hks hkd
    have hdk : ¬dst = k := fun h => hkd h.symm
    have hsk : ¬src = k := fun h => hks h.symm
    simp only [aliasEntry, lookupPtr, if_neg hdk]
    unfold ensureName
    cases h : lookupPtr reg.map src with
    | some p => simp
    | none => simp [lookupPtr, if_neg hsk]

/-- C10 witness: with `dst` already bound to its own distinct entry, the
alias call discards that binding — `dst` resolves to `src`'s entry — while
an unrelated key keeps its binding. -/
theorem alias_rebindsDst_frame_witness :
    (let reg : Registry :=
      (ensureName ((ensureName { heap := [], map := [] } "b").2) "c").2
     lookupPtr reg.map "b" = some 0
     ∧ lookupPtr (aliasEntry reg "a" "b").map "b" = some 2
     ∧ lookupPtr (aliasEntry reg "a" "b").map "c" = lookupPtr reg.map "c")
    ∧ ("c" : String) ≠ "a" ∧ ("c" : String) ≠ "b" := by
  refine ⟨⟨by decide, ?_, ?_⟩, by decide, by decide⟩
  · have h := (alias_rebindsDst_frame
      ((ensureName ((ensureName { heap := [], map := [] } "b").2) "c").2) "a" "b").1
    simpa using h
  · exact (alias_rebindsDst_frame
      ((ensureName ((ensureName { heap := [], map := [] } "b").2) "c").2) "a" "b").2.2
      "c" (by decide) (by decide)

/-- C8: on any call that reaches the query (transport acquired; the
interface pin, when requested, accepted), the parameters carried into the
query hold the defaults: an empty domain has become "local", a zero timeout
has become one second, and non-empty domains and non-zero timeouts are left
as given. -/
theorem query_appliesDefaults (s : Nat) (bind6 : Option Nat)
    (packFails : String → Nat → Bool) (trace : List Event) (params : QueryParam) :
    (Query { bind4 := some s, bind6 := bind6, prim4 := fun _ _ => none,
             prim6 := fun _ _ => none, packFails := packFails,
             trace := trace } params).finalParams.Domain
        = (if params.Domain = "" then "local" else params.Domain)
    ∧ (Query { bind4 := some s, bind6 := bind6, prim4 := fun _ _ => none,
               prim6 := fun _ _ => none, packFails := packFails,
               trace := trace } params).finalParams.Timeout
        = (if params.Timeout = 0 then timeSecond else params.Timeout) := by
  cases hI : params.Interface <;>
    simp [Query, newClient, setInterface, hI]

/-- A query request whose caller left both defaults blank. -/
def paramsC9 : QueryParam :=
  { Service := "_http._tcp", Domain := "", Timeout := 0, Interface := none,
    QueryType := TypeANY, Entries := 0 }

/-- An environment in which both multicast bind attempts fail. -/
def envC9 : Env :=
  { bind4 := none, bind6 := none, prim4 := fun _ _ => none,
    prim6 := fun _ _ => none, packFails := fun _ _ => false,
    trace := [Event.timeout] }

/-- C9 counterexample: a call with empty `Domain` and zero `Timeout` whose
transport acquisition fails returns before reaching the defaults step, so
the caller-visible struct still holds `Domain = ""` and `Timeout = 0` —
not `"local"` and one second as the claim states for every call. -/
theorem query_failedSetup_leavesParamsUntouched :
    (Query envC9 paramsC9).finalParams.Domain = ""
    ∧ (Query envC9 paramsC9).finalParams.Timeout = 0
    ∧ (Query envC9 paramsC9).retVal = some (some "Failed to bind to any udp port!") :=
  ⟨rfl, rfl, rfl⟩

/-- C9 (amended): `Query` mutates the caller's struct in place exactly when
the call reaches the defaults step. A setup-error return — which is precisely
a return whose error value is non-nil, since the post-setup phase only ever
returns nil — leaves the struct untouched; every post-setup outcome leaves
it holding the normalized `Domain` and `Timeout`; and `Service`,
`Interface`, `QueryType` and `Entries` are never modified on any path. -/
theorem query_paramMutation_frame (env : Env) (params : QueryParam) :
    ((Query env params).finalParams.Service = params.Service
      ∧ (Query env params).finalParams.Interface = params.Interface
      ∧ (Query env params).finalParams.QueryType = params.QueryType
      ∧ (Query env params).finalParams.Entries = params.Entries)
    ∧ (∀ e : String, (Query env params).retVal = some (some e) →
        (Query env params).finalParams = params)
    ∧ (((Query env params).retVal = none ∨ (Query env params).retVal = some none) →
        (Query env params).finalParams
          = { params with
              Domain := if params.Domain = "" then "local" else params.Domain,
              Timeout := if params.Timeout = 0 then timeSecond else params.Timeout }) := by
  have hcq := clientQuery_retVal env.packFails env.trace
    { params with
      Domain := if params.Domain = "" then "local" else params.Domain,
      Timeout := if params.Timeout = 0 then timeSecond else params.Timeout }
  unfold Query
  cases hnc : newClient env.bind4 env.bind6 with
  | error e => simp
  | ok c =>
    cases hI : params.Interface with
    | some iface =>
      cases hsi : setInterface env.prim4 env.prim6 iface c with
      | some e => simp [hsi, hI]
      | none =>
        simp only [hsi]
        rw [hI] at hcq
        rcases hcq with h | h <;> simp [h, hI]
    | none =>
      rw [hI] at hcq
      rcases hcq with h | h <;> simp [h, hI]
